import Mathlib

/-!
Shallow embedding of `src/main.py` (azure-devops-fetcher): a single FastAPI
endpoint `fetch_azure_boards` that builds a WIQL query, submits it, extracts
work-item ids, bulk-fetches full records in chunks of 100, and normalizes the
results.  Remote HTTP traffic is modelled by an oracle (`Scenario`) giving the
response to the query call and to each successive bulk-fetch call; the
embedding additionally records the trace of bulk-fetch calls issued.
-/

/-- Python/JSON values as returned by `response.json()`.  Numbers are modelled
as integers (ids and the fields exercised here are never fractional). -/
inductive Json where
  | null : Json
  | bool : Bool → Json
  | num : Int → Json
  | str : String → Json
  | obj : List (String × Json) → Json
  | arr : List Json → Json

/-- `isinstance(x, str)` test. -/
def Json.isStr : Json → Bool
  | .str _ => true
  | _ => false

/-- `isinstance(x, dict)` test. -/
def Json.isDict : Json → Bool
  | .obj _ => true
  | _ => false

mutual

/-- Python `repr` of a JSON-decoded value (dicts/lists print like Python
literals; string escaping inside `repr` is not modelled, no claim depends
on it). -/
def pyRepr : Json → String
  | .null => "None"
  | .bool b => if b then "True" else "False"
  | .num n => toString n
  | .str s => "\x27" ++ s ++ "\x27"
  | .obj fs => "\x7b" ++ pyReprPairs fs ++ "\x7d"
  | .arr l => "[" ++ pyReprElems l ++ "]"

def pyReprPairs : List (String × Json) → String
  | [] => ""
  | [(k, v)] => "\x27" ++ k ++ "\x27: " ++ pyRepr v
  | (k, v) :: p :: rest => "\x27" ++ k ++ "\x27: " ++ pyRepr v ++ ", " ++ pyReprPairs (p :: rest)

def pyReprElems : List Json → String
  | [] => ""
  | [v] => pyRepr v
  | v :: w :: rest => pyRepr v ++ ", " ++ pyReprElems (w :: rest)

end

/-- Python `str()` of a JSON-decoded value (as used by `str(item["id"])`). -/
def pyStr : Json → String
  | .null => "None"
  | .bool b => if b then "True" else "False"
  | .num n => toString n
  | .str s => s
  | .obj fs => pyRepr (.obj fs)
  | .arr l => pyRepr (.arr l)

/-- The Python exceptions the endpoint can raise internally; all are caught by
the outer `except Exception` handler. -/
inductive PyExc where
  | httpError : String → PyExc
  | keyError : String → PyExc
  | typeError : String → PyExc
  | attributeError : String → PyExc
deriving DecidableEq, Repr

/-- `str(e)` for each modelled exception (`str(KeyError(k))` is `repr(k)`). -/
def PyExc.message : PyExc → String
  | .httpError m => m
  | .keyError k => "\x27" ++ k ++ "\x27"
  | .typeError m => m
  | .attributeError m => m

/-- Python `d.get(key, default)`: raises `AttributeError` on a non-dict,
returns the stored value (even `None`) when the key is present, else the
default.  Duplicate keys cannot arise from JSON decoding, so first match. -/
def pyGet (j : Json) (key : String) (dflt : Json) : Except PyExc Json :=
  match j with
  | .obj fs => .ok ((fs.lookup key).getD dflt)
  | _ => .error (.attributeError "object has no attribute get")

/-- Python `x[key]` for a string key: `KeyError` when absent, `TypeError`
when `x` is not a dict. -/
def pySubscript (j : Json) (key : String) : Except PyExc Json :=
  match j with
  | .obj fs =>
      match fs.lookup key with
      | some v => .ok v
      | none => .error (.keyError key)
  | _ => .error (.typeError "object is not subscriptable")

/-- Python `for x in j`: lists yield elements, strings yield one-character
strings, dicts yield their keys, everything else raises `TypeError`. -/
def pyIter (j : Json) : Except PyExc (List Json) :=
  match j with
  | .arr l => .ok l
  | .str s => .ok (s.toList.map (fun c => .str (String.mk [c])))
  | .obj fs => .ok (fs.map (fun p => .str p.1))
  | _ => .error (.typeError "object is not iterable")

/-- The request model `FetchBoardsRequest` of `src/main.py`. -/
structure FetchBoardsRequest where
  organization : String
  project : String
  pat : String
  work_item_type : Option String
  assigned_to : Option String
deriving DecidableEq, Repr

/-- One remote HTTP response: status code, reason phrase, raw text body, and
the value `response.json()` parses to. -/
structure HttpResponse where
  status : Nat
  reason : String
  body : String
  json : Json

/-- Oracle for the remote service: the response to the WIQL query submission,
and the response to the `k`-th bulk-fetch call (0-based, in issue order). -/
structure Scenario where
  queryResponse : HttpResponse
  fetchResponse : Nat → HttpResponse

/-- Python truthiness of an optional string (`None` and `""` are falsy). -/
def optTruthy : Option String → Bool
  | none => false
  | some s => !(s == "")

/-- The WHERE clause list built at lines 33-37 of `src/main.py`. -/
def where_clauses (r : FetchBoardsRequest) : List String :=
  let cs := ["[System.TeamProject] = \x27" ++ r.project ++ "\x27"]
  let cs := if optTruthy r.work_item_type && ((r.work_item_type.getD "").toLower != "all")
    then cs ++ ["[System.WorkItemType] = \x27" ++ (r.work_item_type.getD "") ++ "\x27"]
    else cs
  let cs := if optTruthy r.assigned_to
    then cs ++ ["[System.AssignedTo] CONTAINS \x27" ++ (r.assigned_to.getD "") ++ "\x27"]
    else cs
  cs

/-- `" AND ".join(where_clauses)`. -/
def where_string (r : FetchBoardsRequest) : String :=
  String.intercalate " AND " (where_clauses r)

/-- The WIQL query text posted to the query endpoint. -/
def wiql_query_text (r : FetchBoardsRequest) : String :=
  "Select [System.Id], [System.Title], [System.State] From WorkItems WHERE " ++ where_string r

/-- The WIQL submission URL. -/
def wiql_url (organization project : String) : String :=
  "https://dev.azure.com/" ++ organization ++ "/" ++ project ++
    "/_apis/wit/wiql?api-version=7.1-preview.2"

/-- The bulk work-items URL for a comma-joined id list. -/
def workitems_url (organization project ids_str : String) : String :=
  "https://dev.azure.com/" ++ organization ++ "/" ++ project ++
    "/_apis/wit/workitems?ids=" ++ ids_str ++
    "&fields=System.Id,System.Title,System.State,System.WorkItemType,System.AssignedTo&api-version=7.1-preview.2"

/-- `requests.Response.raise_for_status`: raises `HTTPError` exactly on 4xx
(client error) and 5xx (server error) statuses, with the message format of the
`requests` library; the response body is not part of the message. -/
def raise_for_status (resp : HttpResponse) (url : String) : Except PyExc Unit :=
  if 400 ≤ resp.status ∧ resp.status < 500 then
    .error (.httpError (toString resp.status ++ " Client Error: " ++ resp.reason ++ " for url: " ++ url))
  else if 500 ≤ resp.status ∧ resp.status < 600 then
    .error (.httpError (toString resp.status ++ " Server Error: " ++ resp.reason ++ " for url: " ++ url))
  else
    .ok ()

/-- Whether `raise_for_status` raises for this status. -/
def statusRaises (status : Nat) : Bool :=
  decide (400 ≤ status ∧ status < 600)

/-- A Python loop/comprehension that computes `f` on each element in order and
stops at the first exception (as an uncaught exception aborts the loop). -/
def mapExcept {e a b : Type} (f : a → Except e b) : List a → Except e (List b)
  | [] => .ok []
  | x :: rest =>
    match f x with
    | .error err => .error err
    | .ok y =>
      match mapExcept f rest with
      | .error err => .error err
      | .ok ys => .ok (y :: ys)

/-- Line 57 of `src/main.py`:
`work_item_ids = [str(item["id"]) for item in data.get("workItems", [])]`. -/
def extract_work_item_ids (data : Json) : Except PyExc (List String) := do
  let wi ← pyGet data "workItems" (.arr [])
  let items ← pyIter wi
  mapExcept (fun item => do
    let v ← pySubscript item "id"
    pure (pyStr v)) items

/-- The `chunk_size` constant of line 63. -/
def chunk_size : Nat := 100

/-- The slices `ids[i:i+n]` for `i in range(0, len(ids), n)` (lines 64-65),
assuming `0 < n` so that `range` steps forward. -/
def id_chunks (ids : List String) (n : Nat) : List (List String) :=
  (List.range ((ids.length + n - 1) / n)).map (fun k => (ids.drop (k * n)).take n)

/-- `",".join(chunk_ids)`. -/
def ids_join (chunk : List String) : String :=
  String.intercalate "," chunk

/-- One bulk-fetch call as issued by lines 66-72: the chunk of ids and the
URL it was sent to. -/
structure FetchCall where
  ids : List String
  url : String
deriving DecidableEq, Repr

def mkFetchCall (organization project : String) (chunk : List String) : FetchCall :=
  ⟨chunk, workitems_url organization project (ids_join chunk)⟩

/-- Lines 74-75: `workitems_response.json().get("value", [])`, iterated. -/
def fetch_value_items (resp : HttpResponse) : Except PyExc (List Json) := do
  let v ← pyGet resp.json "value" (.arr [])
  pyIter v

/-- The batch loop of lines 64-76, with `k` the index of the next bulk-fetch
call.  Returns the trace of calls issued (the failing call included) and
either the accumulated raw items of all batches or the first exception. -/
def run_batches (sc : Scenario) (organization project : String) :
    Nat → List (List String) → List FetchCall × Except PyExc (List Json)
  | _, [] => ([], .ok [])
  | k, chunk :: rest =>
    let call := mkFetchCall organization project chunk
    let resp := sc.fetchResponse k
    match raise_for_status resp call.url with
    | .error e => ([call], .error e)
    | .ok _ =>
      match fetch_value_items resp with
      | .error e => ([call], .error e)
      | .ok items =>
        let next := run_batches sc organization project (k + 1) rest
        (call :: next.1,
          match next.2 with
          | .error e => .error e
          | .ok restItems => .ok (items ++ restItems))

/-- The assignee-shape conditional of lines 85-92: a dict yields its
`displayName` (default `"Unassigned"`), a plain string yields itself, and any
other shape (including `None`) yields `"Unassigned"`. -/
def resolve_assignee (assigned_to_field : Json) : Json :=
  match assigned_to_field with
  | .obj afs => (afs.lookup "displayName").getD (.str "Unassigned")
  | .str s => .str s
  | _ => .str "Unassigned"

/-- The per-item normalization of lines 79-100: polymorphic `AssignedTo`
handling, then the five-key simplified record. -/
def simplify_item (item : Json) : Except PyExc Json := do
  let fields ← pyGet item "fields" (.obj [])
  let assigned_to_field ← pyGet fields "System.AssignedTo" .null
  let assignee_name : Json := resolve_assignee assigned_to_field
  let idv ← pyGet item "id" .null
  let title ← pyGet fields "System.Title" (.str "N/A")
  let state ← pyGet fields "System.State" (.str "N/A")
  let wtype ← pyGet fields "System.WorkItemType" (.str "N/A")
  pure (.obj [("ID", idv), ("Title", title), ("State", state), ("Type", wtype),
    ("AssignedTo", assignee_name)])

/-- The sentinel list returned on the zero-identifier path (line 60). -/
def no_results_sentinel : List Json :=
  [.obj [("message", .str "No work items found matching your criteria.")]]

/-- The uniform failure shape raised at line 108: `HTTPException(500, str(e))`. -/
structure ErrorResponse where
  status : Nat
  detail : String
deriving DecidableEq, Repr

/-- The body of the `try` block (lines 48-103): either the `workItems` list of
the success response or the first exception raised. -/
def fetch_azure_boards_try (sc : Scenario) (payload : FetchBoardsRequest) :
    List FetchCall × Except PyExc (List Json) :=
  let url := wiql_url payload.organization payload.project
  match raise_for_status sc.queryResponse url with
  | .error e => ([], .error e)
  | .ok _ =>
    match extract_work_item_ids sc.queryResponse.json with
    | .error e => ([], .error e)
    | .ok work_item_ids =>
      if work_item_ids.isEmpty then
        ([], .ok no_results_sentinel)
      else
        let res := run_batches sc payload.organization payload.project 0
          (id_chunks work_item_ids chunk_size)
        (res.1,
          match res.2 with
          | .error e => .error e
          | .ok detailed_workitems =>
            match mapExcept simplify_item detailed_workitems with
            | .error e => .error e
            | .ok simplified_results => .ok simplified_results)

/-- The whole endpoint `fetch_azure_boards` (lines 26-108): the `try` body
with every exception mapped to `HTTPException(status_code=500, detail=str(e))`.
The first component is the trace of bulk-fetch calls issued. -/
def fetch_azure_boards (sc : Scenario) (payload : FetchBoardsRequest) :
    List FetchCall × Except ErrorResponse (List Json) :=
  let res := fetch_azure_boards_try sc payload
  (res.1,
    match res.2 with
    | .ok workItems => .ok workItems
    | .error e => .error ⟨500, e.message⟩)

/-! ## Supporting definitions for the statements -/

/-- The project-scoping WHERE clause (line 33). -/
def project_clause (project : String) : String :=
  "[System.TeamProject] = \x27" ++ project ++ "\x27"

/-- The work-item-type WHERE clause (line 35). -/
def type_clause (t : String) : String :=
  "[System.WorkItemType] = \x27" ++ t ++ "\x27"

/-- The assignee WHERE clause (line 37). -/
def assignee_clause (a : String) : String :=
  "[System.AssignedTo] CONTAINS \x27" ++ a ++ "\x27"

/-- Whether the first list is an initial segment of the second. -/
def isPrefixChars : List Char → List Char → Bool
  | [], _ => true
  | _ :: _, [] => false
  | a :: as, b :: bs => a == b && isPrefixChars as bs

/-- Whether `needle` occurs as a contiguous run inside `hay`. -/
def occursChars (needle : List Char) : List Char → Bool
  | [] => isPrefixChars needle []
  | c :: rest => isPrefixChars needle (c :: rest) || occursChars needle rest

/-- Whether `needle` occurs as a substring of `hay` (Python `needle in hay`). -/
def strOccurs (needle hay : String) : Bool :=
  occursChars needle.toList hay.toList

/-- `Except` success test. -/
def exceptIsOk {ε α : Type} : Except ε α → Bool
  | .ok _ => true
  | .error _ => false

/-- A bulk-fetch response on which lines 73-75 raise nothing: the status does
not trip `raise_for_status` and the body's `value` member iterates. -/
def goodFetchResponse (r : HttpResponse) : Bool :=
  !(statusRaises r.status) && exceptIsOk (fetch_value_items r)

/-- The message `str(e)` of the `HTTPError` raised by `raise_for_status`
on a 4xx/5xx response fetched from `url`. -/
def http_error_message (resp : HttpResponse) (url : String) : String :=
  if resp.status < 500 then
    toString resp.status ++ " Client Error: " ++ resp.reason ++ " for url: " ++ url
  else
    toString resp.status ++ " Server Error: " ++ resp.reason ++ " for url: " ++ url

/-- The raw `System.AssignedTo` value a work item carries (the value line 84
reads), `null` when the item or its `fields` member is missing/ill-shaped. -/
def raw_assigned_to (item : Json) : Json :=
  match item with
  | .obj fs =>
    match (fs.lookup "fields").getD (.obj []) with
    | .obj ffs => (ffs.lookup "System.AssignedTo").getD .null
    | _ => .null
  | _ => .null

/-! ## Basic lemmas -/

theorem raise_for_status_ok (resp : HttpResponse) (url : String)
    (h : statusRaises resp.status = false) : raise_for_status resp url = .ok () := by
  have h' : ¬(400 ≤ resp.status ∧ resp.status < 600) := by
    simpa [statusRaises] using h
  rw [raise_for_status, if_neg (by omega), if_neg (by omega)]

theorem raise_for_status_err (resp : HttpResponse) (url : String)
    (h : statusRaises resp.status = true) :
    raise_for_status resp url = .error (.httpError (http_error_message resp url)) := by
  have h' : 400 ≤ resp.status ∧ resp.status < 600 := by
    simpa [statusRaises] using h
  by_cases hc : resp.status < 500
  · rw [raise_for_status, if_pos (by omega), http_error_message, if_pos hc]
  · rw [raise_for_status, if_neg (by omega), if_pos (by omega), http_error_message,
      if_neg hc]

/-- Full characterization of `simplify_item` on a dict item whose `fields`
entry resolves to the dict `ffs`. -/
theorem simplify_item_eq (fs ffs : List (String × Json))
    (hf : (fs.lookup "fields").getD (.obj []) = .obj ffs) :
    simplify_item (.obj fs) = .ok (.obj [
      ("ID", (fs.lookup "id").getD .null),
      ("Title", (ffs.lookup "System.Title").getD (.str "N/A")),
      ("State", (ffs.lookup "System.State").getD (.str "N/A")),
      ("Type", (ffs.lookup "System.WorkItemType").getD (.str "N/A")),
      ("AssignedTo", resolve_assignee ((ffs.lookup "System.AssignedTo").getD .null))]) := by
  simp [simplify_item, pyGet, hf, Bind.bind, Except.bind, Pure.pure, Except.pure]

/-- C1.  For every raw work item whose `fields` member resolves to a dict
(`ffs`; the empty dict when absent), normalization succeeds — no assignee
shape makes it raise — and the `AssignedTo` field of the output is: the
`displayName` sub-field when the assignee value is a structured object
(`"Unassigned"` when that sub-field is absent); the string itself when the
assignee value is a plain string; `"Unassigned"` otherwise (absent, null, or
any other shape). -/
theorem assignedTo_polymorphic (fs ffs : List (String × Json))
    (hf : (fs.lookup "fields").getD (.obj []) = .obj ffs) :
    ∃ idv title state wtype, simplify_item (.obj fs) = .ok (.obj [
      ("ID", idv), ("Title", title), ("State", state), ("Type", wtype),
      ("AssignedTo",
        match (ffs.lookup "System.AssignedTo").getD .null with
        | .obj afs => (afs.lookup "displayName").getD (.str "Unassigned")
        | .str s => .str s
        | _ => .str "Unassigned")]) := by
  cases h : (ffs.lookup "System.AssignedTo").getD .null <;>
    (have he := simplify_item_eq fs ffs hf
     rw [h] at he
     exact ⟨_, _, _, _, he⟩)

theorem assignedTo_polymorphic_witness :
    ([("fields", Json.obj [("System.AssignedTo",
        Json.obj [("displayName", Json.str "Jane Doe")])])].lookup "fields").getD (.obj [])
      = Json.obj [("System.AssignedTo", Json.obj [("displayName", Json.str "Jane Doe")])] ∧
    ∃ idv title state wtype,
      simplify_item (.obj [("fields", Json.obj [("System.AssignedTo",
          Json.obj [("displayName", Json.str "Jane Doe")])])]) = .ok (.obj [
        ("ID", idv), ("Title", title), ("State", state), ("Type", wtype),
        ("AssignedTo",
          match ([("System.AssignedTo", Json.obj [("displayName", Json.str "Jane Doe")])].lookup
              "System.AssignedTo").getD .null with
          | .obj afs => (afs.lookup "displayName").getD (.str "Unassigned")
          | .str s => .str s
          | _ => .str "Unassigned")]) :=
  ⟨rfl, assignedTo_polymorphic
    [("fields", Json.obj [("System.AssignedTo", Json.obj [("displayName", Json.str "Jane Doe")])])]
    [("System.AssignedTo", Json.obj [("displayName", Json.str "Jane Doe")])] rfl⟩

/-- C8.  For every raw work item whose identifier is present (as the remote
contract assumes) and whose `fields` member resolves to a dict, the normalized
record's `ID` is the identifier verbatim, and `Title`, `State`, `Type` are the
raw `System.Title`, `System.State`, `System.WorkItemType` fields when present,
else the sentinel `"N/A"`. -/
theorem normalized_core_fields (fs ffs : List (String × Json)) (idv : Json)
    (hid : fs.lookup "id" = some idv)
    (hf : (fs.lookup "fields").getD (.obj []) = .obj ffs) :
    ∃ assignee, simplify_item (.obj fs) = .ok (.obj [
      ("ID", idv),
      ("Title", (ffs.lookup "System.Title").getD (.str "N/A")),
      ("State", (ffs.lookup "System.State").getD (.str "N/A")),
      ("Type", (ffs.lookup "System.WorkItemType").getD (.str "N/A")),
      ("AssignedTo", assignee)]) := by
  have h := simplify_item_eq fs ffs hf
  rw [hid] at h
  exact ⟨_, h⟩

theorem normalized_core_fields_witness :
    ([("id", Json.num 7), ("fields", Json.obj [("System.Title", Json.str "Fix bug")])].lookup "id"
      = some (Json.num 7)) ∧
    ∃ assignee,
      simplify_item (.obj [("id", Json.num 7),
          ("fields", Json.obj [("System.Title", Json.str "Fix bug")])]) = .ok (.obj [
        ("ID", Json.num 7),
        ("Title", ([("System.Title", Json.str "Fix bug")].lookup "System.Title").getD (.str "N/A")),
        ("State", ([("System.Title", Json.str "Fix bug")].lookup "System.State").getD (.str "N/A")),
        ("Type", ([("System.Title", Json.str "Fix bug")].lookup
          "System.WorkItemType").getD (.str "N/A")),
        ("AssignedTo", assignee)]) :=
  ⟨rfl, normalized_core_fields
    [("id", Json.num 7), ("fields", Json.obj [("System.Title", Json.str "Fix bug")])]
    [("System.Title", Json.str "Fix bug")] (Json.num 7) rfl rfl⟩

/-- C3.  For every fetch request, the WHERE clause list is exactly: the
project-scoping equality clause, always; the work-item-type equality clause
when `work_item_type` is present and neither the empty string nor
case-insensitively `"all"`; the assignee substring-containment clause when
`assigned_to` is present and non-empty — in the fixed order project, type,
assignee — and the query joins them with `" AND "`. -/
theorem where_clauses_exact (r : FetchBoardsRequest) :
    where_clauses r =
      [project_clause r.project]
      ++ (match r.work_item_type with
          | some t => if t ≠ "" ∧ t.toLower ≠ "all" then [type_clause t] else []
          | none => [])
      ++ (match r.assigned_to with
          | some a => if a ≠ "" then [assignee_clause a] else []
          | none => [])
    ∧ where_string r = String.intercalate " AND " (where_clauses r) := by
  refine ⟨?_, rfl⟩
  obtain ⟨org, proj, pat, wt, at_⟩ := r
  cases wt with
  | none =>
    cases at_ with
    | none => rfl
    | some a =>
      by_cases ha : a = "" <;>
        simp [where_clauses, optTruthy, project_clause, assignee_clause, ha]
  | some t =>
    cases at_ with
    | none =>
      by_cases ht : t = ""
      · simp [where_clauses, optTruthy, project_clause, ht]
      · by_cases hl : t.toLower = "all" <;>
          simp [where_clauses, optTruthy, project_clause, type_clause, ht, hl]
    | some a =>
      by_cases ht : t = ""
      · by_cases ha : a = "" <;>
          simp [where_clauses, optTruthy, project_clause, assignee_clause, ht, ha]
      · by_cases hl : t.toLower = "all" <;> by_cases ha : a = "" <;>
          simp [where_clauses, optTruthy, project_clause, type_clause, assignee_clause,
            ht, hl, ha]

/-! ## Chunking lemmas -/

theorem id_chunks_cons100 (ids : List String) (h : ids ≠ []) :
    id_chunks ids 100 = ids.take 100 :: id_chunks (ids.drop 100) 100 := by
  have hlen : 0 < ids.length := List.length_pos.mpr h
  have hm : (ids.length + 100 - 1) / 100 = ((ids.drop 100).length + 100 - 1) / 100 + 1 := by
    rw [List.length_drop]; omega
  rw [id_chunks, id_chunks, hm, List.range_succ_eq_map, List.map_cons, List.map_map]
  congr 1
  have hfun : ((fun k => List.take 100 (List.drop (k * 100) ids)) ∘ Nat.succ)
      = (fun k => List.take 100 (List.drop (k * 100) (List.drop 100 ids))) := by
    funext k
    simp only [Function.comp_apply]
    have hk : Nat.succ k * 100 = 100 + k * 100 := by omega
    rw [hk, ← List.drop_drop]
  rw [hfun]

theorem id_chunks_flatten (ids : List String) : (id_chunks ids 100).flatten = ids := by
  by_cases h : ids = []
  · subst h; rfl
  · rw [id_chunks_cons100 ids h, List.flatten_cons, id_chunks_flatten (ids.drop 100),
      List.take_append_drop]
termination_by ids.length
decreasing_by
  have := List.length_pos.mpr h
  simp [List.length_drop]
  omega

theorem id_chunks_mem (ids : List String) (c : List String)
    (hc : c ∈ id_chunks ids 100) : c.length ≤ 100 ∧ c ≠ [] := by
  rw [id_chunks] at hc
  simp only [List.mem_map, List.mem_range] at hc
  obtain ⟨k, hk, rfl⟩ := hc
  refine ⟨by simp [List.length_take], ?_⟩
  have hpos : 0 < ((ids.drop (k * 100)).take 100).length := by
    simp only [List.length_take, List.length_drop]
    omega
  exact List.ne_nil_of_length_pos hpos

theorem id_chunks_250 (ids : List String) (h : ids.length = 250) :
    (id_chunks ids 100).map List.length = [100, 100, 50] := by
  have h3 : (ids.length + 100 - 1) / 100 = 3 := by omega
  rw [id_chunks, h3, List.map_map]
  have hr : List.range 3 = [0, 1, 2] := rfl
  rw [hr]
  simp [Function.comp, List.length_take, List.length_drop, h]

/-! ## Batch-loop lemmas -/

theorem exceptIsOk_ok {ε α : Type} (x : Except ε α) (h : exceptIsOk x = true) :
    ∃ a, x = .ok a := by
  cases x with
  | ok a => exact ⟨a, rfl⟩
  | error e => simp [exceptIsOk] at h

theorem goodFetchResponse_spec (r : HttpResponse) (h : goodFetchResponse r = true) :
    statusRaises r.status = false ∧ ∃ items, fetch_value_items r = .ok items := by
  rw [goodFetchResponse, Bool.and_eq_true, Bool.not_eq_true'] at h
  exact ⟨h.1, exceptIsOk_ok _ h.2⟩

theorem run_batches_all_good (sc : Scenario) (org proj : String) (itemsF : Nat → List Json)
    (hstat : ∀ j, statusRaises (sc.fetchResponse j).status = false)
    (hitems : ∀ j, fetch_value_items (sc.fetchResponse j) = .ok (itemsF j)) :
    ∀ (chunks : List (List String)) (k : Nat),
      run_batches sc org proj k chunks =
        (chunks.map (mkFetchCall org proj),
         .ok (((List.range chunks.length).map (fun j => itemsF (k + j))).flatten)) := by
  intro chunks
  induction chunks with
  | nil => intro k; rfl
  | cons c rest ih =>
    intro k
    have hrange : (List.range (rest.length + 1)).map (fun j => itemsF (k + j))
        = itemsF k :: (List.range rest.length).map (fun j => itemsF (k + 1 + j)) := by
      simp only [List.range_succ_eq_map, List.map_cons, List.map_map, Nat.add_zero,
        List.cons.injEq]
      refine ⟨trivial, ?_⟩
      have hfun : ((fun j => itemsF (k + j)) ∘ Nat.succ) = fun j => itemsF (k + 1 + j) := by
        funext j
        simp only [Function.comp_apply]
        congr 1
        omega
      rw [hfun]
    simp only [run_batches, List.length_cons, hrange, List.flatten_cons, List.map_cons,
      raise_for_status_ok (sc.fetchResponse k) (mkFetchCall org proj c).url (hstat k),
      hitems k, ih (k + 1)]

theorem run_batches_fail (sc : Scenario) (org proj : String) :
    ∀ (k : Nat) (chunks : List (List String)) (start : Nat),
      k < chunks.length →
      (∀ j, j < k → goodFetchResponse (sc.fetchResponse (start + j)) = true) →
      statusRaises (sc.fetchResponse (start + k)).status = true →
      (run_batches sc org proj start chunks).1
          = (chunks.take (k + 1)).map (mkFetchCall org proj)
        ∧ ∃ m, (run_batches sc org proj start chunks).2 = .error (.httpError m) := by
  intro k
  induction k with
  | zero =>
    intro chunks start hk hgood hbad
    cases chunks with
    | nil => simp at hk
    | cons c rest =>
      rw [Nat.add_zero] at hbad
      have herr := raise_for_status_err (sc.fetchResponse start)
        (mkFetchCall org proj c).url hbad
      refine ⟨by simp [run_batches, herr],
        ⟨http_error_message (sc.fetchResponse start) (mkFetchCall org proj c).url,
          by simp [run_batches, herr]⟩⟩
  | succ k ih =>
    intro chunks start hk hgood hbad
    cases chunks with
    | nil => simp at hk
    | cons c rest =>
      have hg := hgood 0 (Nat.succ_pos k)
      rw [Nat.add_zero] at hg
      obtain ⟨hstat0, items, hitems0⟩ := goodFetchResponse_spec _ hg
      have hgood' : ∀ j, j < k → goodFetchResponse (sc.fetchResponse (start + 1 + j)) = true := by
        intro j hj
        have h := hgood (j + 1) (by omega)
        have e : start + (j + 1) = start + 1 + j := by omega
        rwa [e] at h
      have hbad' : statusRaises (sc.fetchResponse (start + 1 + k)).status = true := by
        have e : start + Nat.succ k = start + 1 + k := by omega
        rwa [e] at hbad
      have hk' : k < rest.length := by simp at hk; omega
      obtain ⟨h1, m, h2⟩ := ih rest (start + 1) hk' hgood' hbad'
      have hok := raise_for_status_ok (sc.fetchResponse start)
        (mkFetchCall org proj c).url hstat0
      constructor
      · simp [run_batches, hok, hitems0, h1, List.take_succ_cons]
      · exact ⟨m, by simp [run_batches, hok, hitems0, h2]⟩

/-! ## Endpoint unfolding lemmas -/

theorem fetch_azure_boards_eq (sc : Scenario) (p : FetchBoardsRequest) :
    fetch_azure_boards sc p = ((fetch_azure_boards_try sc p).1,
      match (fetch_azure_boards_try sc p).2 with
      | .ok workItems => .ok workItems
      | .error e => .error ⟨500, e.message⟩) := rfl

theorem fetch_try_run (sc : Scenario) (p : FetchBoardsRequest) (ids : List String)
    (hq : statusRaises sc.queryResponse.status = false)
    (hids : extract_work_item_ids sc.queryResponse.json = .ok ids)
    (hne : ids ≠ []) :
    fetch_azure_boards_try sc p =
      ((run_batches sc p.organization p.project 0 (id_chunks ids chunk_size)).1,
       match (run_batches sc p.organization p.project 0 (id_chunks ids chunk_size)).2 with
       | .error e => .error e
       | .ok detailed => mapExcept simplify_item detailed) := by
  have hempty : ids.isEmpty = false := by
    cases ids with
    | nil => exact absurd rfl hne
    | cons a l => rfl
  have hok := raise_for_status_ok sc.queryResponse (wiql_url p.organization p.project) hq
  simp only [fetch_azure_boards_try, hok, hids, hempty, Bool.false_eq_true, if_false]
  cases hrun : (run_batches sc p.organization p.project 0 (id_chunks ids chunk_size)).2 with
  | error e => rfl
  | ok detailed =>
    cases hm : mapExcept simplify_item detailed with
    | error e => simp [hm]
    | ok s => simp [hm]

/-! ## Lemmas about `mapExcept` -/

theorem mapExcept_ok_length {e a b : Type} (f : a → Except e b) :
    ∀ (l : List a) (out : List b), mapExcept f l = .ok out → out.length = l.length := by
  intro l
  induction l with
  | nil =>
    intro out h
    rw [mapExcept] at h
    cases h
    rfl
  | cons x rest ih =>
    intro out h
    rw [mapExcept] at h
    cases hfx : f x with
    | error err => rw [hfx] at h; cases h
    | ok y =>
      rw [hfx] at h
      cases hrest : mapExcept f rest with
      | error err => rw [hrest] at h; cases h
      | ok ys =>
        rw [hrest] at h
        cases h
        simp [ih ys hrest]

theorem mapExcept_ok_get {e a b : Type} (f : a → Except e b) :
    ∀ (l : List a) (out : List b), mapExcept f l = .ok out →
      ∀ (i : Nat) (hi : i < l.length), ∃ hi2 : i < out.length,
        f (l.get ⟨i, hi⟩) = .ok (out.get ⟨i, hi2⟩) := by
  intro l
  induction l with
  | nil =>
    intro out h i hi
    simp at hi
  | cons x rest ih =>
    intro out h i hi
    rw [mapExcept] at h
    cases hfx : f x with
    | error err => rw [hfx] at h; cases h
    | ok y =>
      rw [hfx] at h
      cases hrest : mapExcept f rest with
      | error err => rw [hrest] at h; cases h
      | ok ys =>
        rw [hrest] at h
        cases h
        cases i with
        | zero => exact ⟨Nat.succ_pos _, hfx⟩
        | succ i =>
          have hi' : i < rest.length := Nat.lt_of_succ_lt_succ hi
          obtain ⟨hi2, hres⟩ := ih ys hrest i hi'
          exact ⟨Nat.succ_lt_succ hi2, hres⟩

theorem mapExcept_ok_mem {e a b : Type} (f : a → Except e b) :
    ∀ (l : List a) (out : List b), mapExcept f l = .ok out →
      ∀ y ∈ out, ∃ x ∈ l, f x = .ok y := by
  intro l
  induction l with
  | nil =>
    intro out h y hy
    rw [mapExcept] at h
    cases h
    simp at hy
  | cons x rest ih =>
    intro out h y hy
    rw [mapExcept] at h
    cases hfx : f x with
    | error err => rw [hfx] at h; cases h
    | ok y0 =>
      rw [hfx] at h
      cases hrest : mapExcept f rest with
      | error err => rw [hrest] at h; cases h
      | ok ys =>
        rw [hrest] at h
        cases h
        rcases List.mem_cons.mp hy with hy0 | hys
        · exact ⟨x, List.mem_cons_self x rest, hy0 ▸ hfx⟩
        · obtain ⟨x', hx', hfx'⟩ := ih ys hrest y hys
          exact ⟨x', List.mem_cons_of_mem x hx', hfx'⟩

/-! ## Claim theorems: success and failure paths -/

/-- C4.  If the query-submission response is a success and its body yields
zero identifiers, the operation succeeds, returning the single-element
"no results" sentinel list, and no bulk-fetch call is issued. -/
theorem zero_ids_no_results (sc : Scenario) (p : FetchBoardsRequest)
    (hq : statusRaises sc.queryResponse.status = false)
    (hids : extract_work_item_ids sc.queryResponse.json = .ok []) :
    fetch_azure_boards sc p = ([], .ok no_results_sentinel)
    ∧ no_results_sentinel.length = 1 := by
  have hok := raise_for_status_ok sc.queryResponse (wiql_url p.organization p.project) hq
  refine ⟨?_, rfl⟩
  simp [fetch_azure_boards, fetch_azure_boards_try, hok, hids]

def sc4 : Scenario :=
  ⟨⟨200, "OK", "", .obj [("workItems", .arr [])]⟩, fun _ => ⟨200, "OK", "", .null⟩⟩

def p4 : FetchBoardsRequest := ⟨"acme", "Website", "token", none, none⟩

theorem zero_ids_no_results_witness :
    statusRaises sc4.queryResponse.status = false
    ∧ extract_work_item_ids sc4.queryResponse.json = .ok []
    ∧ (fetch_azure_boards sc4 p4 = ([], .ok no_results_sentinel)
       ∧ no_results_sentinel.length = 1) :=
  ⟨rfl, rfl, zero_ids_no_results sc4 p4 rfl rfl⟩

/-- C7.  Every outcome of the endpoint is either a normalized list or a single
uniform failure with status 500 whose message is derived (via `str`) from the
triggering internal exception — never anything else, and never partial
results. -/
theorem uniform_error_surface (sc : Scenario) (p : FetchBoardsRequest) :
    (∃ l, (fetch_azure_boards sc p).2 = .ok l)
    ∨ (∃ e : PyExc, (fetch_azure_boards sc p).2 = .error ⟨500, e.message⟩) := by
  rw [fetch_azure_boards_eq]
  cases htry : (fetch_azure_boards_try sc p).2 with
  | ok l => exact Or.inl ⟨l, by simp⟩
  | error e => exact Or.inr ⟨e, by simp⟩

/-- C5 (amended).  If the query-submission call returns a non-success (4xx or
5xx) status, the whole operation fails — but the failure reaching the caller
has status 500 (not the remote status), and its message is the transport
library's error string, which embeds the remote status code and reason phrase
but not the remote response body. -/
theorem query_failure_uniform_500 (sc : Scenario) (p : FetchBoardsRequest)
    (h : statusRaises sc.queryResponse.status = true) :
    fetch_azure_boards sc p = ([], .error ⟨500,
      http_error_message sc.queryResponse (wiql_url p.organization p.project)⟩) := by
  have herr := raise_for_status_err sc.queryResponse (wiql_url p.organization p.project) h
  simp [fetch_azure_boards, fetch_azure_boards_try, herr, PyExc.message]

def sc5 : Scenario :=
  ⟨⟨401, "Unauthorized", "UPSTREAM-BODY-TEXT", .null⟩, fun _ => ⟨200, "OK", "", .null⟩⟩

def p5 : FetchBoardsRequest := ⟨"acme", "Website", "token", none, none⟩

theorem query_failure_uniform_500_witness :
    statusRaises sc5.queryResponse.status = true
    ∧ fetch_azure_boards sc5 p5 = ([], .error ⟨500,
        http_error_message sc5.queryResponse (wiql_url p5.organization p5.project)⟩) :=
  ⟨rfl, query_failure_uniform_500 sc5 p5 rfl⟩

/-- C5 counterexample.  On a 401 query response with body `"UPSTREAM-BODY-TEXT"`,
the caller receives status 500 — not the remote 401 — and a message that does
not contain the remote response body, so the failure does not carry the remote
status code as its status nor the response body verbatim. -/
theorem query_failure_cex :
    (fetch_azure_boards sc5 p5).2 = .error ⟨500,
      "401 Client Error: Unauthorized for url: https://dev.azure.com/acme/Website/_apis/wit/wiql?api-version=7.1-preview.2"⟩
    ∧ strOccurs sc5.queryResponse.body
        "401 Client Error: Unauthorized for url: https://dev.azure.com/acme/Website/_apis/wit/wiql?api-version=7.1-preview.2"
      = false
    ∧ (500 : Nat) ≠ 401 := by
  refine ⟨rfl, ?_, by decide⟩
  decide

/-- C2.  Under a successful query yielding a non-empty identifier list and
successful bulk-fetch responses, the hydrator issues exactly one bulk-fetch
call per chunk, in input order; the chunks are a contiguous partition of the
identifier list in original order, each of size at most 100 and non-empty,
and each call's URL joins its chunk's identifiers with commas; a
250-identifier list yields exactly the 3 chunk sizes 100, 100, 50, in
order. -/
theorem batching_chunks (sc : Scenario) (p : FetchBoardsRequest) (ids : List String)
    (hq : statusRaises sc.queryResponse.status = false)
    (hids : extract_work_item_ids sc.queryResponse.json = .ok ids)
    (hne : ids ≠ [])
    (hgood : ∀ j, goodFetchResponse (sc.fetchResponse j) = true) :
    (fetch_azure_boards sc p).1
        = (id_chunks ids chunk_size).map (mkFetchCall p.organization p.project)
    ∧ (id_chunks ids chunk_size).flatten = ids
    ∧ (∀ c ∈ id_chunks ids chunk_size, c.length ≤ 100 ∧ c ≠ []
        ∧ mkFetchCall p.organization p.project c
          = ⟨c, workitems_url p.organization p.project (String.intercalate "," c)⟩)
    ∧ (ids.length = 250 → (id_chunks ids chunk_size).map List.length = [100, 100, 50]) := by
  have hstat : ∀ j, statusRaises (sc.fetchResponse j).status = false :=
    fun j => (goodFetchResponse_spec _ (hgood j)).1
  have hex : ∀ j, ∃ items, fetch_value_items (sc.fetchResponse j) = .ok items :=
    fun j => (goodFetchResponse_spec _ (hgood j)).2
  choose itemsF hitems using hex
  have hrun := run_batches_all_good sc p.organization p.project itemsF hstat hitems
    (id_chunks ids chunk_size) 0
  have htry := fetch_try_run sc p ids hq hids hne
  refine ⟨?_, id_chunks_flatten ids,
    fun c hc => ⟨(id_chunks_mem ids c hc).1, (id_chunks_mem ids c hc).2, rfl⟩,
    fun h250 => id_chunks_250 ids h250⟩
  rw [fetch_azure_boards_eq, htry, hrun]

def sc2 : Scenario :=
  ⟨⟨200, "OK", "", .obj [("workItems", .arr [.obj [("id", .num 1)], .obj [("id", .num 2)],
      .obj [("id", .num 3)]])]⟩,
   fun _ => ⟨200, "OK", "", .obj [("value", .arr [])]⟩⟩

def p2 : FetchBoardsRequest := ⟨"acme", "Website", "token", some "Bug", some "jane"⟩

theorem batching_chunks_witness :
    (["1", "2", "3"] : List String) ≠ []
    ∧ ((fetch_azure_boards sc2 p2).1
        = (id_chunks ["1", "2", "3"] chunk_size).map (mkFetchCall p2.organization p2.project)
      ∧ (id_chunks ["1", "2", "3"] chunk_size).flatten = ["1", "2", "3"]
      ∧ (∀ c ∈ id_chunks ["1", "2", "3"] chunk_size, c.length ≤ 100 ∧ c ≠ []
          ∧ mkFetchCall p2.organization p2.project c
            = ⟨c, workitems_url p2.organization p2.project (String.intercalate "," c)⟩)
      ∧ (List.length ["1", "2", "3"] = 250 →
          (id_chunks ["1", "2", "3"] chunk_size).map List.length = [100, 100, 50])) :=
  ⟨by decide, batching_chunks sc2 p2 ["1", "2", "3"] rfl rfl (by decide) (fun j => rfl)⟩

/-- C6.  If the bulk-fetch call for batch `k` returns a non-success status
(earlier batches having succeeded), the whole request fails with the uniform
500 failure, exactly the first `k+1` bulk-fetch calls were issued (none after
the failing one), and no work items reach the caller — not even the ones
already fetched from batches before `k`. -/
theorem batch_failure_aborts (sc : Scenario) (p : FetchBoardsRequest) (ids : List String)
    (k : Nat)
    (hq : statusRaises sc.queryResponse.status = false)
    (hids : extract_work_item_ids sc.queryResponse.json = .ok ids)
    (hne : ids ≠ [])
    (hk : k < (id_chunks ids chunk_size).length)
    (hgood : ∀ j, j < k → goodFetchResponse (sc.fetchResponse j) = true)
    (hbad : statusRaises (sc.fetchResponse k).status = true) :
    (fetch_azure_boards sc p).1
        = ((id_chunks ids chunk_size).take (k + 1)).map (mkFetchCall p.organization p.project)
    ∧ ∃ m, (fetch_azure_boards sc p).2 = .error ⟨500, m⟩ := by
  have hgood0 : ∀ j, j < k → goodFetchResponse (sc.fetchResponse (0 + j)) = true := by
    intro j hj
    rw [Nat.zero_add]
    exact hgood j hj
  have hbad0 : statusRaises (sc.fetchResponse (0 + k)).status = true := by
    rw [Nat.zero_add]
    exact hbad
  obtain ⟨h1, m, h2⟩ := run_batches_fail sc p.organization p.project k
    (id_chunks ids chunk_size) 0 hk hgood0 hbad0
  have htry := fetch_try_run sc p ids hq hids hne
  constructor
  · rw [fetch_azure_boards_eq, htry]
    exact h1
  · refine ⟨m, ?_⟩
    rw [fetch_azure_boards_eq, htry]
    simp [h2, PyExc.message]

def sc6 : Scenario :=
  ⟨⟨200, "OK", "", .obj [("workItems", .arr [.obj [("id", .num 1)], .obj [("id", .num 2)]])]⟩,
   fun _ => ⟨503, "Service Unavailable", "upstream broke", .null⟩⟩

def p6 : FetchBoardsRequest := ⟨"acme", "Website", "token", none, none⟩

theorem batch_failure_aborts_witness :
    (["1", "2"] : List String) ≠ []
    ∧ statusRaises (sc6.fetchResponse 0).status = true
    ∧ ((fetch_azure_boards sc6 p6).1
        = ((id_chunks ["1", "2"] chunk_size).take (0 + 1)).map
            (mkFetchCall p6.organization p6.project)
      ∧ ∃ m, (fetch_azure_boards sc6 p6).2 = .error ⟨500, m⟩) :=
  ⟨by decide, rfl, batch_failure_aborts sc6 p6 ["1", "2"] 0 rfl rfl (by decide) (by decide)
    (fun j hj => absurd hj (Nat.not_lt_zero j)) rfl⟩

/-- C9.  On a successful run with at least one identifier and well-formed
batch responses, the output is exactly the batch-order-then-response-order
concatenation of raw items, normalized element-wise: the normalization map
succeeds on the concatenated raw list, the output has one element per raw
item, and the `i`-th output is the normalization of the `i`-th raw item — no
re-sorting, no dropping. -/
theorem output_order_preserved (sc : Scenario) (p : FetchBoardsRequest) (ids : List String)
    (itemsF : Nat → List Json) (raws l : List Json)
    (hq : statusRaises sc.queryResponse.status = false)
    (hids : extract_work_item_ids sc.queryResponse.json = .ok ids)
    (hne : ids ≠ [])
    (hstat : ∀ j, statusRaises (sc.fetchResponse j).status = false)
    (hitems : ∀ j, fetch_value_items (sc.fetchResponse j) = .ok (itemsF j))
    (hraws : raws = ((List.range (id_chunks ids chunk_size).length).map itemsF).flatten)
    (hl : (fetch_azure_boards sc p).2 = .ok l) :
    mapExcept simplify_item raws = .ok l
    ∧ l.length = raws.length
    ∧ ∀ (i : Nat) (hi : i < raws.length), ∃ hi2 : i < l.length,
        simplify_item (raws.get ⟨i, hi⟩) = .ok (l.get ⟨i, hi2⟩) := by
  have hrun := run_batches_all_good sc p.organization p.project itemsF hstat hitems
    (id_chunks ids chunk_size) 0
  have hzero : (fun j => itemsF (0 + j)) = itemsF := by
    funext j
    rw [Nat.zero_add]
  rw [hzero] at hrun
  have htry := fetch_try_run sc p ids hq hids hne
  rw [fetch_azure_boards_eq, htry, hrun] at hl
  subst hraws
  simp only [] at hl
  cases hm : mapExcept simplify_item
      (((List.range (id_chunks ids chunk_size).length).map itemsF).flatten) with
  | error e => rw [hm] at hl; cases hl
  | ok w =>
    rw [hm] at hl
    cases hl
    exact ⟨rfl, mapExcept_ok_length simplify_item _ _ hm, mapExcept_ok_get simplify_item _ _ hm⟩

def sc9 : Scenario :=
  ⟨⟨200, "OK", "", .obj [("workItems", .arr [.obj [("id", .num 1)], .obj [("id", .num 2)]])]⟩,
   fun _ => ⟨200, "OK", "",
    .obj [("value", .arr [
      .obj [("id", .num 1), ("fields", .obj [("System.Title", .str "A")])],
      .obj [("id", .num 2), ("fields", .obj [])]])]⟩⟩

def p9 : FetchBoardsRequest := ⟨"acme", "Website", "token", none, none⟩

theorem output_order_preserved_witness :
    (["1", "2"] : List String) ≠ []
    ∧ (mapExcept simplify_item
        [.obj [("id", .num 1), ("fields", .obj [("System.Title", .str "A")])],
         .obj [("id", .num 2), ("fields", .obj [])]]
        = .ok [.obj [("ID", .num 1), ("Title", .str "A"), ("State", .str "N/A"),
            ("Type", .str "N/A"), ("AssignedTo", .str "Unassigned")],
          .obj [("ID", .num 2), ("Title", .str "N/A"), ("State", .str "N/A"),
            ("Type", .str "N/A"), ("AssignedTo", .str "Unassigned")]]
      ∧ ([Json.obj [("ID", .num 1), ("Title", .str "A"), ("State", .str "N/A"),
            ("Type", .str "N/A"), ("AssignedTo", .str "Unassigned")],
          Json.obj [("ID", .num 2), ("Title", .str "N/A"), ("State", .str "N/A"),
            ("Type", .str "N/A"), ("AssignedTo", .str "Unassigned")]].length
          = ([Json.obj [("id", .num 1), ("fields", .obj [("System.Title", .str "A")])],
              Json.obj [("id", .num 2), ("fields", .obj [])]]).length)
      ∧ ∀ (i : Nat)
          (hi : i < ([Json.obj [("id", .num 1), ("fields", .obj [("System.Title", .str "A")])],
            Json.obj [("id", .num 2), ("fields", .obj [])]]).length),
          ∃ hi2 : i < ([Json.obj [("ID", .num 1), ("Title", .str "A"), ("State", .str "N/A"),
              ("Type", .str "N/A"), ("AssignedTo", .str "Unassigned")],
            Json.obj [("ID", .num 2), ("Title", .str "N/A"), ("State", .str "N/A"),
              ("Type", .str "N/A"), ("AssignedTo", .str "Unassigned")]]).length,
            simplify_item (([Json.obj [("id", .num 1),
                ("fields", .obj [("System.Title", .str "A")])],
              Json.obj [("id", .num 2), ("fields", .obj [])]]).get ⟨i, hi⟩)
              = .ok (([Json.obj [("ID", .num 1), ("Title", .str "A"), ("State", .str "N/A"),
                  ("Type", .str "N/A"), ("AssignedTo", .str "Unassigned")],
                Json.obj [("ID", .num 2), ("Title", .str "N/A"), ("State", .str "N/A"),
                  ("Type", .str "N/A"), ("AssignedTo", .str "Unassigned")]]).get ⟨i, hi2⟩)) :=
  ⟨by decide, output_order_preserved sc9 p9 ["1", "2"]
    (fun _ => [.obj [("id", .num 1), ("fields", .obj [("System.Title", .str "A")])],
      .obj [("id", .num 2), ("fields", .obj [])]])
    [.obj [("id", .num 1), ("fields", .obj [("System.Title", .str "A")])],
     .obj [("id", .num 2), ("fields", .obj [])]]
    [.obj [("ID", .num 1), ("Title", .str "A"), ("State", .str "N/A"),
        ("Type", .str "N/A"), ("AssignedTo", .str "Unassigned")],
     .obj [("ID", .num 2), ("Title", .str "N/A"), ("State", .str "N/A"),
        ("Type", .str "N/A"), ("AssignedTo", .str "Unassigned")]]
    rfl rfl (by decide) (fun j => rfl) (fun j => rfl) rfl rfl⟩

/-! ## Shape of normalized records (C10) -/

theorem simplify_item_ok_inv (item out : Json) (h : simplify_item item = .ok out) :
    ∃ fs ffs, item = .obj fs ∧ (fs.lookup "fields").getD (.obj []) = .obj ffs := by
  cases item with
  | obj fs =>
    cases hf : (fs.lookup "fields").getD (.obj []) with
    | obj ffs => exact ⟨fs, ffs, rfl, hf⟩
    | null => exact absurd h (by simp [simplify_item, pyGet, hf, Bind.bind, Except.bind])
    | bool b => exact absurd h (by simp [simplify_item, pyGet, hf, Bind.bind, Except.bind])
    | num n => exact absurd h (by simp [simplify_item, pyGet, hf, Bind.bind, Except.bind])
    | str s => exact absurd h (by simp [simplify_item, pyGet, hf, Bind.bind, Except.bind])
    | arr x => exact absurd h (by simp [simplify_item, pyGet, hf, Bind.bind, Except.bind])
  | null => exact absurd h (by simp [simplify_item, pyGet, Bind.bind, Except.bind])
  | bool b => exact absurd h (by simp [simplify_item, pyGet, Bind.bind, Except.bind])
  | num n => exact absurd h (by simp [simplify_item, pyGet, Bind.bind, Except.bind])
  | str s => exact absurd h (by simp [simplify_item, pyGet, Bind.bind, Except.bind])
  | arr x => exact absurd h (by simp [simplify_item, pyGet, Bind.bind, Except.bind])

theorem raw_assigned_to_obj (fs ffs : List (String × Json))
    (hf : (fs.lookup "fields").getD (.obj []) = .obj ffs) :
    raw_assigned_to (.obj fs) = (ffs.lookup "System.AssignedTo").getD .null := by
  simp [raw_assigned_to, hf]

theorem resolve_assignee_shape (a : Json) :
    (resolve_assignee a).isStr = true
    ∨ ∃ afs, a = .obj afs ∧ afs.lookup "displayName" = some (resolve_assignee a)
        ∧ (resolve_assignee a).isStr = false := by
  cases a with
  | obj afs =>
    cases hd : afs.lookup "displayName" with
    | none => left; simp [resolve_assignee, hd, Json.isStr]
    | some d =>
      cases hstr : d.isStr with
      | true => left; simp [resolve_assignee, hd, hstr]
      | false =>
        right
        exact ⟨afs, rfl, by simp [resolve_assignee, hd], by simp [resolve_assignee, hd, hstr]⟩
  | null => left; rfl
  | bool b => left; rfl
  | num n => left; rfl
  | str s => left; rfl
  | arr x => left; rfl

/-- C10 (amended).  Every element of the list returned by a successful run
with at least one identifier is the normalization of some raw item and has
exactly the five keys `ID`, `Title`, `State`, `Type`, `AssignedTo`; its
`AssignedTo` value is a plain string in every case except when the raw
assignee field is a structured object whose `displayName` sub-field is
present but not itself a string — then `AssignedTo` is that sub-field's value
verbatim (possibly null or structured); and `ID` is null whenever the raw
record lacks an identifier. -/
theorem simplified_shape_invariant (sc : Scenario) (p : FetchBoardsRequest)
    (ids : List String) (l : List Json)
    (hq : statusRaises sc.queryResponse.status = false)
    (hids : extract_work_item_ids sc.queryResponse.json = .ok ids)
    (hne : ids ≠ [])
    (hl : (fetch_azure_boards sc p).2 = .ok l) :
    ∀ o ∈ l, ∃ raw idv title state wtype assignee,
      simplify_item raw = .ok o
      ∧ o = .obj [("ID", idv), ("Title", title), ("State", state), ("Type", wtype),
          ("AssignedTo", assignee)]
      ∧ (assignee.isStr = true
         ∨ ∃ afs, raw_assigned_to raw = .obj afs
             ∧ afs.lookup "displayName" = some assignee ∧ assignee.isStr = false)
      ∧ (∀ rfs, raw = .obj rfs → rfs.lookup "id" = none → idv = .null) := by
  have htry := fetch_try_run sc p ids hq hids hne
  rw [fetch_azure_boards_eq, htry] at hl
  cases hrun : (run_batches sc p.organization p.project 0 (id_chunks ids chunk_size)).2 with
  | error e => simp [hrun] at hl
  | ok detailed =>
    simp only [hrun] at hl
    cases hm : mapExcept simplify_item detailed with
    | error e => simp [hm] at hl
    | ok w =>
      simp only [hm, Except.ok.injEq] at hl
      subst hl
      intro o ho
      obtain ⟨raw, hrawmem, hsim⟩ := mapExcept_ok_mem simplify_item detailed w hm o ho
      obtain ⟨fs, ffs, hraweq, hf⟩ := simplify_item_ok_inv raw o hsim
      subst hraweq
      rw [simplify_item_eq fs ffs hf] at hsim
      injection hsim with ho2
      subst ho2
      refine ⟨.obj fs, _, _, _, _, _, simplify_item_eq fs ffs hf, rfl, ?_, ?_⟩
      · rw [raw_assigned_to_obj fs ffs hf]
        exact resolve_assignee_shape _
      · intro rfs hinj hidnone
        injection hinj with hfs
        subst hfs
        rw [hidnone]
        rfl

def sc10 : Scenario :=
  ⟨⟨200, "OK", "", .obj [("workItems", .arr [.obj [("id", .num 7)]])]⟩,
   fun _ => ⟨200, "OK", "", .obj [("value", .arr [.obj [("id", .num 7),
     ("fields", .obj [("System.AssignedTo", .obj [("displayName", .null)])])]])]⟩⟩

def p10 : FetchBoardsRequest := ⟨"acme", "Website", "token", none, none⟩

theorem simplified_shape_invariant_witness :
    (["7"] : List String) ≠ []
    ∧ ∀ o ∈ [Json.obj [("ID", .num 7), ("Title", .str "N/A"), ("State", .str "N/A"),
        ("Type", .str "N/A"), ("AssignedTo", Json.null)]],
      ∃ raw idv title state wtype assignee,
        simplify_item raw = .ok o
        ∧ o = .obj [("ID", idv), ("Title", title), ("State", state), ("Type", wtype),
            ("AssignedTo", assignee)]
        ∧ (assignee.isStr = true
           ∨ ∃ afs, raw_assigned_to raw = .obj afs
               ∧ afs.lookup "displayName" = some assignee ∧ assignee.isStr = false)
        ∧ (∀ rfs, raw = .obj rfs → rfs.lookup "id" = none → idv = .null) :=
  ⟨by decide, simplified_shape_invariant sc10 p10 ["7"]
    [Json.obj [("ID", .num 7), ("Title", .str "N/A"), ("State", .str "N/A"),
      ("Type", .str "N/A"), ("AssignedTo", Json.null)]] rfl rfl (by decide) rfl⟩

/-- C10 counterexample.  A successful run whose single raw item has a
structured assignee with `displayName: null` returns a record whose
`AssignedTo` value is null — not a plain string — so `AssignedTo` is not
always a plain string. -/
theorem simplified_shape_cex :
    (fetch_azure_boards sc10 p10).2 = .ok [.obj [("ID", .num 7), ("Title", .str "N/A"),
      ("State", .str "N/A"), ("Type", .str "N/A"), ("AssignedTo", Json.null)]]
    ∧ Json.isStr Json.null = false :=
  ⟨rfl, rfl⟩
